import Mathlib

set_option linter.unusedVariables false

/-!
Verification development for the `aeron-archive` C++ client fragment
(`src/aeron-archive/src/main/cpp/client/AeronArchive.h`).

The file has two layers:

* Embeddings of the code that is present in the source file:
  `AeronArchive::connect` (a poll/idle loop over `AsyncConnect::poll`),
  `AeronArchive::startReplay` and `AeronArchive::pollForResponse`
  (whose bodies in the source are `// TODO: finish` stubs).

* Models, each marked `Modelled from the spec:`, of components of this
  repository whose implementations are not under `src/` (only their
  declarations, includes or call sites are): `AsyncConnect::poll`,
  `Aeron::nextCorrelationId`, the control-response poller and the
  backoff idle strategy.
-/

/-! ## Embedding of `AeronArchive::connect` (AeronArchive.h lines 56-70)

The C++ body is:

    std::shared_ptr<AsyncConnect> asyncConnect = AeronArchive::asyncConnect(context);
    ConnectIdleStrategy idle;
    std::shared_ptr<AeronArchive> archive = asyncConnect->poll();
    while (!archive)
    {
        idle.idle();
        archive = asyncConnect->poll();
    }
    return archive;

`connect` only observes the successive results of `asyncConnect->poll()`,
so the environment is abstracted as `polls : Nat → Option Nat`, where
`polls i` is the result of the (i+1)-th call to `poll()` (`none` models a
null `shared_ptr`, `some a` a non-null archive handle `a`).  The loop has
no bound in the source; `fuel` bounds the number of retry iterations so
the embedding is total, and a run that exhausts its fuel models an
execution that has not yet terminated. -/

/-- One observable action performed by `AeronArchive::connect`: a call to
`asyncConnect->poll()` or a call to `idle.idle()`. -/
inductive ConnectEv where
  | pollEv
  | idleEv
deriving DecidableEq, Repr

/-- The retry loop of `AeronArchive::connect`, started at poll index `i`:
poll once; if the archive pointer is non-null return it, otherwise idle
and retry.  Returns the final pointer value together with the ordered
trace of poll/idle actions performed. -/
def connectLoop (polls : Nat → Option Nat) : Nat → Nat → Option Nat × List ConnectEv
  | i, 0 => (polls i, [ConnectEv.pollEv])
  | i, fuel + 1 =>
    match polls i with
    | some a => (some a, [ConnectEv.pollEv])
    | none =>
      let r := connectLoop polls (i + 1) fuel
      (r.1, ConnectEv.pollEv :: ConnectEv.idleEv :: r.2)

/-- Embedding of `AeronArchive::connect`: the loop started at the first
poll. -/
def connect (polls : Nat → Option Nat) (fuel : Nat) : Option Nat × List ConnectEv :=
  connectLoop polls 0 fuel

/-- The action trace with exactly `k` unproductive polls: `k` times
(poll, idle) and then one final poll.  `altTrace k` starts with a poll,
has exactly one idle between any two consecutive polls, and never idles
after its last poll. -/
def altTrace : Nat → List ConnectEv
  | 0 => [ConnectEv.pollEv]
  | k + 1 => ConnectEv.pollEv :: ConnectEv.idleEv :: altTrace k

/-- Decides that a trace starts with a poll and has exactly one idle
between each pair of consecutive polls (and ends with a poll). -/
def wellInterleaved : List ConnectEv → Bool
  | [ConnectEv.pollEv] => true
  | ConnectEv.pollEv :: ConnectEv.idleEv :: rest => wellInterleaved rest
  | _ => false

/-! ## Embedding of `AeronArchive::startReplay` and
`AeronArchive::pollForResponse` (AeronArchive.h lines 78-91 and 97-105)

The C++ bodies are:

    std::int64_t startReplay(recordingId, position, length, replayChannel, replayStreamId)
    {
        const std::int64_t correlationId = m_aeron->nextCorrelationId();
        // TODO: finish
        return pollForResponse<IdleStrategy>(correlationId);
    }

    int pollForResponse(std::int64_t correlationId)
    {
        IdleStrategy idle;
        // TODO: finish
        return 0;
    }

`m_aeron->nextCorrelationId()` is a call into the external Aeron client,
modelled as a caller-supplied state-passing function.  The embedding is
instrumented with counters for the observable actions the claims talk
about: `sends` counts request messages published on the control-request
channel and `polls` counts sweeps of the response poller.  The source
bodies contain no send and no poll, so both counters are zero. -/

/-- Result of `AeronArchive::pollForResponse`: the returned `int` and the
number of response-poller sweeps performed.  The source body constructs
an `IdleStrategy` and returns `0` without polling anything. -/
structure PollOutcome where
  result : Int
  polls : Nat
deriving DecidableEq, Repr

/-- Embedding of `AeronArchive::pollForResponse` (AeronArchive.h:97-105). -/
def pollForResponse (correlationId : Int) : PollOutcome :=
  { result := 0, polls := 0 }

/-- Result of `AeronArchive::startReplay`: the returned `std::int64_t`,
the Aeron client state after the call (of caller-chosen type `σ`), the
number of request sends and the number of response-poller sweeps. -/
structure ReplayCall (σ : Type) where
  result : Int
  aeron : σ
  sends : Nat
  polls : Nat
deriving DecidableEq, Repr

/-- Embedding of `AeronArchive::startReplay` (AeronArchive.h:78-91):
allocate a correlation id from the Aeron client, then return
`pollForResponse correlationId`.  No argument is validated, no request is
sent, and no exception is raised (the return type carries no error). -/
def startReplay {σ : Type} (nextCorrelationId : σ → Int × σ) (aeron : σ)
    (recordingId position length : Int) (replayChannel : String)
    (replayStreamId : Int) : ReplayCall σ :=
  let p := nextCorrelationId aeron
  let q := pollForResponse p.1
  { result := q.result, aeron := p.2, sends := 0, polls := q.polls }

/-- A concrete Aeron client state for evaluating `startReplay`: a counter
whose `nextCorrelationId` returns the incremented counter. -/
def counterNextCorrelationId (k : Int) : Int × Int := (k + 1, k + 1)

/-! ## Theorems about the stubbed replay path (claims C1, C2, C3, C9) -/

/-- C9: for every connected client and all argument values, `startReplay`
returns 0: `pollForResponse` ignores its correlation-id argument and
unconditionally returns 0, so the result is independent of every
caller-supplied argument (and of the Aeron client state). -/
theorem startReplay_returns_zero {σ : Type} (nextCorrelationId : σ → Int × σ)
    (aeron : σ) (recordingId position length : Int) (replayChannel : String)
    (replayStreamId : Int) :
    (startReplay nextCorrelationId aeron recordingId position length
      replayChannel replayStreamId).result = 0 := rfl

/-- C1 (code evaluated at the spec's input): `startReplay(1, 0, 1000,
"aeron:udp?endpoint=localhost:20000", 5)` on a fresh counter client
returns 0 having performed zero request sends and zero response polls —
the source body is a stub, so no request is ever sent and the response
poller is never consulted, contradicting the claimed one send and at
least one poll. -/
theorem startReplay_spec_input_no_send :
    startReplay counterNextCorrelationId 0 1 0 1000
      "aeron:udp?endpoint=localhost:20000" 5 =
      { result := 0, aeron := 1, sends := 0, polls := 0 } := rfl

/-- C2 (code evaluated at the failing input): `startReplay` with
`position = -1` does not fail: it allocates a correlation id (the Aeron
counter advances from 0 to 1) and returns 0 normally — the source
performs no argument validation and has no error path, contradicting the
claimed `ValidationError` before correlation-id allocation. -/
theorem startReplay_negative_position_not_validated :
    startReplay counterNextCorrelationId 0 1 (-1) 1000
      "aeron:udp?endpoint=localhost:20000" 5 =
      { result := 0, aeron := 1, sends := 0, polls := 0 } := rfl

/-- C3 (code evaluated): `pollForResponse` returns 0 immediately for
every correlation id, performing zero polls: it consults no deadline and
has no timeout (or any other) failure path, contradicting the claimed
`TimeoutError` between D and D plus one poll interval. -/
theorem pollForResponse_no_timeout (correlationId : Int) :
    pollForResponse correlationId = { result := 0, polls := 0 } := rfl

/-! ## Theorems about `AeronArchive::connect` (claims C4, C10) -/

/-- Helper: the trace of every run of the connect loop is a strict
poll/idle alternation starting and ending with a poll. -/
theorem connectLoop_wellInterleaved (polls : Nat → Option Nat) :
    ∀ fuel i, wellInterleaved (connectLoop polls i fuel).2 = true := by
  intro fuel
  induction fuel with
  | zero => intro i; simp [connectLoop, wellInterleaved]
  | succ fuel ih =>
    intro i
    cases h : polls i with
    | some a => simp [connectLoop, h, wellInterleaved]
    | none => simpa [connectLoop, h, wellInterleaved] using ih (i + 1)

/-- Helper: if some poll within the fuel bound returns a non-null
archive, the loop's result is non-null. -/
theorem connectLoop_isSome (polls : Nat → Option Nat) :
    ∀ fuel i j, i ≤ j → j ≤ i + fuel → (polls j).isSome →
      (connectLoop polls i fuel).1.isSome := by
  intro fuel
  induction fuel with
  | zero =>
    intro i j hij hji hj
    have : j = i := le_antisymm (by omega) hij
    subst this
    simpa [connectLoop] using hj
  | succ fuel ih =>
    intro i j hij hji hj
    cases h : polls i with
    | some a => simp [connectLoop, h]
    | none =>
      have hne : j ≠ i := by
        intro he; rw [he, h] at hj; simp at hj
      have h1 : i + 1 ≤ j := by omega
      have h2 : j ≤ (i + 1) + fuel := by omega
      simpa [connectLoop, h] using ih (i + 1) j h1 h2 hj

/-- Helper: if the first non-null poll is the one at index `k` past the
start and the fuel suffices, the loop returns exactly that poll's result
with the trace of `k` unproductive (poll, idle) rounds and a final
productive poll. -/
theorem connectLoop_first_success (polls : Nat → Option Nat) (a : Nat) :
    ∀ k i fuel, (∀ j, j < k → polls (i + j) = none) → polls (i + k) = some a →
      k ≤ fuel → connectLoop polls i fuel = (some a, altTrace k) := by
  intro k
  induction k with
  | zero =>
    intro i fuel hfirst hk hle
    have hi : polls i = some a := by simpa using hk
    cases fuel with
    | zero => simp [connectLoop, hi, altTrace]
    | succ fuel => simp [connectLoop, hi, altTrace]
  | succ k ih =>
    intro i fuel hfirst hk hle
    have hi : polls i = none := by simpa using hfirst 0 (Nat.succ_pos k)
    cases fuel with
    | zero => omega
    | succ fuel =>
      have hfirst2 : ∀ j, j < k → polls (i + 1 + j) = none := by
        intro j hj
        have := hfirst (j + 1) (by omega)
        simpa [Nat.add_assoc, Nat.add_comm 1 j] using this
      have hk2 : polls (i + 1 + k) = some a := by
        have : i + 1 + k = i + (k + 1) := by omega
        rw [this]; exact hk
      have := ih (i + 1) fuel hfirst2 hk2 (by omega)
      simp [connectLoop, hi, this, altTrace]

/-- C4: the blocking `connect` entry point is exactly a loop over
`poll()`: its result is the first non-null value returned by
`asyncConnect->poll()`, its trace consists of one `idle()` after each
unproductive poll followed by a retry, and nothing else — so `connect`
contains no protocol logic of its own, being fully determined by the
sequence of poll results. -/
theorem connect_is_poll_loop (polls : Nat → Option Nat) (fuel i : Nat) (a : Nat)
    (hfirst : ∀ j, j < i → polls j = none) (hi : polls i = some a)
    (hle : i ≤ fuel) :
    connect polls fuel = (some a, altTrace i) := by
  have hfirst0 : ∀ j, j < i → polls (0 + j) = none := by
    intro j hj; simpa using hfirst j hj
  have hi0 : polls (0 + i) = some a := by simpa using hi
  exact connectLoop_first_success polls a i 0 fuel hfirst0 hi0 hle

/-- Witness for C4 at a concrete poll sequence whose first success is the
third poll. -/
theorem connect_is_poll_loop_witness :
    connect (fun j => if j = 2 then some 7 else none) 5 = (some 7, altTrace 2) :=
  connect_is_poll_loop (fun j => if j = 2 then some 7 else none) 5 2 7
    (by intro j hj; interval_cases j <;> rfl) (by rfl) (by omega)

/-- C10: for every terminating execution of `connect` (one in which some
poll within the fuel bound returns a non-null archive), the returned
pointer is non-null and the action trace starts with a poll, has exactly
one `idle()` between each pair of consecutive polls, and never idles
before the first poll (`wellInterleaved`). -/
theorem connect_nonnull_idle_placement (polls : Nat → Option Nat) (fuel j : Nat)
    (hj : j ≤ fuel) (hs : (polls j).isSome) :
    (connect polls fuel).1.isSome ∧ wellInterleaved (connect polls fuel).2 = true :=
  ⟨connectLoop_isSome polls fuel 0 j (Nat.zero_le j) (by omega) hs,
    connectLoop_wellInterleaved polls fuel 0⟩

/-- Witness for C10 at a concrete poll sequence. -/
theorem connect_nonnull_idle_placement_witness :
    ((connect (fun j => if j = 1 then some 9 else none) 4).1.isSome ∧
      wellInterleaved (connect (fun j => if j = 1 then some 9 else none) 4).2 = true) :=
  connect_nonnull_idle_placement (fun j => if j = 1 then some 9 else none) 4 1
    (by omega) (by rfl)

/-! ## Correlation-id generator (claim C6) -/

/-- Modelled from the spec: the implementation of
`Aeron::nextCorrelationId` is not under `src/` (only its call site,
AeronArchive.h:86, is).  Spec §4.2: a process-local monotonically
increasing 64-bit sequence, one per client session; `next()` returns a
value strictly greater than every previously returned value; never the
zero/sentinel value reserved for no correlation. -/
structure CorrelationIdGenerator where
  last : Int
deriving DecidableEq, Repr

/-- Modelled from the spec: `next()` advances the sequence and returns
the new value. -/
def CorrelationIdGenerator.next (g : CorrelationIdGenerator) :
    Int × CorrelationIdGenerator :=
  (g.last + 1, { last := g.last + 1 })

/-- A fresh session generator: no id handed out yet; the reserved
sentinel 0 is the initial `last`. -/
def CorrelationIdGenerator.init : CorrelationIdGenerator := { last := 0 }

/-- The list of correlation ids returned by `n` successive calls to
`next()` starting from state `g`. -/
def genIds : CorrelationIdGenerator → Nat → List Int
  | _, 0 => []
  | g, n + 1 =>
    let p := g.next
    p.1 :: genIds p.2 n

/-- Helper: every id handed out is above the state's `last`, and the run
is strictly increasing. -/
theorem genIds_pairwise_gt :
    ∀ n g, (genIds g n).Pairwise (· < ·) ∧ ∀ x ∈ genIds g n, g.last < x := by
  intro n
  induction n with
  | zero => intro g; simp [genIds]
  | succ n ih =>
    intro g
    obtain ⟨hp, hgt⟩ := ih { last := g.last + 1 }
    refine ⟨List.pairwise_cons.mpr ⟨?_, hp⟩, ?_⟩
    · intro x hx
      have h2 : g.last + 1 < x :=
        hgt x (by simpa [CorrelationIdGenerator.next] using hx)
      show g.last + 1 < x
      exact h2
    · intro x hx
      rcases (by simpa [genIds, CorrelationIdGenerator.next] using hx :
          x = g.last + 1 ∨ x ∈ genIds { last := g.last + 1 } n) with h | h
      · omega
      · have h2 : g.last + 1 < x := hgt x h
        omega

/-- C6: over any sequence of calls on one session's generator, the
returned correlation ids are strictly increasing (each strictly greater
than every previously returned value, hence no two requests ever share a
correlation id) and none of them is the reserved zero sentinel. -/
theorem nextCorrelationId_strictly_increasing_nonzero (n : Nat) :
    (genIds CorrelationIdGenerator.init n).Pairwise (· < ·) ∧
      ∀ x ∈ genIds CorrelationIdGenerator.init n, x ≠ 0 := by
  obtain ⟨hp, hgt⟩ := genIds_pairwise_gt n CorrelationIdGenerator.init
  exact ⟨hp, fun x hx => by have := hgt x hx; simp [CorrelationIdGenerator.init] at this; omega⟩

/-! ## Async-connect state machine (claim C5) -/

/-- Errors surfaced by the control protocol (spec §7). -/
inductive ArchiveError where
  | timeoutError
deriving DecidableEq, Repr

/-- Modelled from the spec: the body of `AeronArchive::AsyncConnect::poll`
is not under `src/` (only its declaration, AeronArchive.h:43, is).
Spec §4.4: states `SendConnectRequest → AwaitConnectResponse → Ready |
Failed`; `AwaitConnectResponse` records the connect correlation id and
the send timestamp; `Ready` caches the connected client and `Failed`
the failure. -/
inductive ConnState where
  | sendConnectRequest
  | awaitConnectResponse (correlationId : Int) (sendTime : Nat)
  | ready (client : Nat)
  | failed (err : ArchiveError)
deriving DecidableEq, Repr

/-- The async-connect handshake object: configuration (connect timeout),
the session's correlation-id generator and the current state. -/
structure AsyncConnect where
  connectTimeout : Nat
  gen : CorrelationIdGenerator
  state : ConnState
deriving DecidableEq, Repr

/-- Terminal states of the handshake (spec §4.4: `Ready` and `Failed`). -/
def ConnState.isTerminal : ConnState → Bool
  | ConnState.ready _ => true
  | ConnState.failed _ => true
  | _ => false

/-- The cached outcome a terminal state keeps returning: the connected
client for `Ready`, the failure for `Failed`, nothing otherwise. -/
def ConnState.outcome : ConnState → Option (Except ArchiveError Nat)
  | ConnState.ready c => some (Except.ok c)
  | ConnState.failed e => some (Except.error e)
  | _ => none

/-- Modelled from the spec: `AsyncConnect::poll` (spec §4.4).  Inputs per
call: the current time `now` and the response (correlation id, payload)
the response poller currently offers, if any.  At most one transition per
call: `sendConnectRequest` allocates the first correlation id, emits the
connect request and records the send time; `awaitConnectResponse` becomes
`ready` on a matching response, `failed` on deadline expiry, and
otherwise stays put; `ready` and `failed` return their cached outcome
unchanged. -/
def AsyncConnect.poll (ac : AsyncConnect) (now : Nat) (resp : Option (Int × Nat)) :
    AsyncConnect × Option (Except ArchiveError Nat) :=
  match ac.state with
  | ConnState.sendConnectRequest =>
    let p := ac.gen.next
    ({ ac with gen := p.2, state := ConnState.awaitConnectResponse p.1 now }, none)
  | ConnState.awaitConnectResponse cid t0 =>
    match resp with
    | some r =>
      if r.1 = cid then
        ({ ac with state := ConnState.ready r.2 }, some (Except.ok r.2))
      else if ac.connectTimeout < now - t0 then
        ({ ac with state := ConnState.failed ArchiveError.timeoutError },
          some (Except.error ArchiveError.timeoutError))
      else (ac, none)
    | none =>
      if ac.connectTimeout < now - t0 then
        ({ ac with state := ConnState.failed ArchiveError.timeoutError },
          some (Except.error ArchiveError.timeoutError))
      else (ac, none)
  | ConnState.ready c => (ac, some (Except.ok c))
  | ConnState.failed e => (ac, some (Except.error e))

/-- C5: once the handshake object has reached a terminal state (`Ready`
or `Failed`), every further `poll()` — whatever the current time and
whatever response the poller offers — returns the same cached terminal
outcome and leaves the object completely unchanged: terminal `poll()` is
an idempotent no-op. -/
theorem asyncConnect_poll_terminal_idempotent (ac : AsyncConnect) (now : Nat)
    (resp : Option (Int × Nat)) (h : ac.state.isTerminal = true) :
    ac.poll now resp = (ac, ac.state.outcome) := by
  cases hs : ac.state with
  | sendConnectRequest => rw [hs] at h; simp [ConnState.isTerminal] at h
  | awaitConnectResponse cid t0 => rw [hs] at h; simp [ConnState.isTerminal] at h
  | ready c => simp [AsyncConnect.poll, hs, ConnState.outcome]
  | failed e => simp [AsyncConnect.poll, hs, ConnState.outcome]

/-- Witness for C5: a handshake object in the `ready` state polled again
at a later time with a stray response. -/
theorem asyncConnect_poll_terminal_idempotent_witness :
    AsyncConnect.poll
        { connectTimeout := 100, gen := { last := 1 }, state := ConnState.ready 42 }
        999 (some (5, 6)) =
      ({ connectTimeout := 100, gen := { last := 1 }, state := ConnState.ready 42 },
        some (Except.ok 42)) :=
  asyncConnect_poll_terminal_idempotent
    { connectTimeout := 100, gen := { last := 1 }, state := ConnState.ready 42 }
    999 (some (5, 6)) (by decide)

/-! ## Response poller (claim C7) -/

/-- Modelled from the spec: the control-response poller's implementation
(`ControlResponsePoller.h`, included at AeronArchive.h:21) is not under
`src/`.  Spec §4.3: the poller tracks the set of outstanding request
correlation ids and keeps the most recently received decoded response
keyed by correlation id; taking a response removes it (at-most-once
delivery); responses whose correlation id matches no outstanding request
are decoded and then discarded. -/
structure ResponsePoller where
  outstanding : List Int
  received : List (Int × Int)
deriving DecidableEq, Repr

/-- Modelled from the spec: processing of one decoded inbound response
`(cid, payload)`.  A response for an outstanding correlation id replaces
any previously held response for that id; a response for an unknown or
already-consumed correlation id is discarded. -/
def ResponsePoller.onResponse (p : ResponsePoller) (cid payload : Int) :
    ResponsePoller :=
  if cid ∈ p.outstanding then
    { p with received := (cid, payload) :: p.received.filter (fun e => e.1 ≠ cid) }
  else p

/-- C7: for every poller state and every inbound response whose
correlation id matches no outstanding request, processing that response
leaves the poller — and so the state tracked for every outstanding
correlation id — completely unchanged: the stray response is discarded,
never delivered to a different request. -/
theorem responsePoller_discards_unmatched (p : ResponsePoller) (cid payload : Int)
    (h : cid ∉ p.outstanding) :
    p.onResponse cid payload = p := by
  simp [ResponsePoller.onResponse, h]

/-- Witness for C7: a stray response (correlation id 99) presented to a
poller with requests 1 and 2 outstanding. -/
theorem responsePoller_discards_unmatched_witness :
    ResponsePoller.onResponse { outstanding := [1, 2], received := [(1, 10)] } 99 7 =
      { outstanding := [1, 2], received := [(1, 10)] } :=
  responsePoller_discards_unmatched
    { outstanding := [1, 2], received := [(1, 10)] } 99 7 (by decide)

/-! ## Backoff idle strategy (claim C8) -/

/-- Modelled from the spec: the wait performed by one `idle()` call of
the backoff strategy (`concurrent/BackOffIdleStrategy.h`, included at
AeronArchive.h:22, is not under `src/`).  Spec §4.1: the strategy
escalates through spin → yield → short sleep → longer sleep. -/
inductive BackoffPhase where
  | spin
  | yield
  | shortSleep
  | longSleep
deriving DecidableEq, Repr

/-- The escalation order of the waits: spin is the minimal wait and each
later phase waits at least as long as every earlier one. -/
def BackoffPhase.rank : BackoffPhase → Nat
  | BackoffPhase.spin => 0
  | BackoffPhase.yield => 1
  | BackoffPhase.shortSleep => 2
  | BackoffPhase.longSleep => 3

/-- Modelled from the spec: the backoff idle strategy.  `count` is the
number of consecutive unproductive polls accumulated so far; the phase
thresholds are configuration. -/
structure BackoffIdleStrategy where
  maxSpins : Nat
  maxYields : Nat
  maxShortSleeps : Nat
  count : Nat
deriving DecidableEq, Repr

/-- The wait the strategy performs at its current escalation level. -/
def BackoffIdleStrategy.phase (s : BackoffIdleStrategy) : BackoffPhase :=
  if s.count < s.maxSpins then BackoffPhase.spin
  else if s.count < s.maxSpins + s.maxYields then BackoffPhase.yield
  else if s.count < s.maxSpins + s.maxYields + s.maxShortSleeps then
    BackoffPhase.shortSleep
  else BackoffPhase.longSleep

/-- Modelled from the spec: one `idle()` call after an unproductive poll
performs the current phase's wait and accumulates one more unproductive
poll. -/
def BackoffIdleStrategy.idle (s : BackoffIdleStrategy) :
    BackoffPhase × BackoffIdleStrategy :=
  (s.phase, { s with count := s.count + 1 })

/-- Modelled from the spec: the instant a poll makes progress the
strategy resets to the start of the escalation ladder. -/
def BackoffIdleStrategy.reset (s : BackoffIdleStrategy) : BackoffIdleStrategy :=
  { s with count := 0 }

/-- The waits performed by `n` successive `idle()` calls (a run of `n`
consecutive unproductive polls) starting from state `s`. -/
def idleRun : BackoffIdleStrategy → Nat → List BackoffPhase
  | _, 0 => []
  | s, n + 1 =>
    let p := s.idle
    p.1 :: idleRun p.2 n

/-- Helper: the escalation level never decreases as unproductive polls
accumulate. -/
theorem backoffPhase_rank_mono (a b c : Nat) :
    ∀ m n, m ≤ n →
      (BackoffIdleStrategy.phase ⟨a, b, c, m⟩).rank ≤
        (BackoffIdleStrategy.phase ⟨a, b, c, n⟩).rank := by
  intro m n hmn
  simp only [BackoffIdleStrategy.phase]
  split_ifs <;> simp_all [BackoffPhase.rank] <;> omega

/-- Helper: successive waits in a run of consecutive unproductive polls
are pairwise non-decreasing. -/
theorem idleRun_chain_le (a b c : Nat) :
    ∀ n m, (idleRun ⟨a, b, c, m⟩ n).Chain' (fun p q => p.rank ≤ q.rank) := by
  intro n
  induction n with
  | zero => intro m; simp [idleRun]
  | succ n ih =>
    intro m
    cases n with
    | zero => simp [idleRun]
    | succ n =>
      refine List.chain'_cons.mpr ⟨?_, ?_⟩
      · exact backoffPhase_rank_mono a b c m (m + 1) (Nat.le_succ m)
      · exact ih (m + 1)

/-- C8: over any run of consecutive unproductive polls the waits
performed by successive `idle()` calls are non-decreasing in the
escalation order, and after a productive poll (a `reset`) the next
`idle()` performs a wait no longer than the wait any state of the same
configuration would perform — the minimal (spin-end) wait. -/
theorem backoff_monotone_and_resets (a b c m : Nat) (n : Nat) :
    (idleRun ⟨a, b, c, m⟩ n).Chain' (fun p q => p.rank ≤ q.rank) ∧
      ∀ k, ((BackoffIdleStrategy.reset ⟨a, b, c, m⟩).idle.1).rank ≤
        ((⟨a, b, c, k⟩ : BackoffIdleStrategy).idle.1).rank := by
  refine ⟨idleRun_chain_le a b c n m, ?_⟩
  intro k
  exact backoffPhase_rank_mono a b c 0 k (Nat.zero_le k)
